import Mathlib

/-!
Verification of the relational data model, integrity constraints, row-level
security (RLS) policies and trigger functions of the social-web schema defined
in `supabase/migrations/`.  Tables are embedded as lists of row structures;
uuid values and timestamptz instants are embedded as natural numbers; RLS
policies become boolean predicates over the caller identity and the database
state; inserts, updates and cascading deletes become state-transforming
functions returning `Except` on constraint violations.
-/

namespace SocialApp

/-- uuid values of the schema, embedded as naturals. -/
abbrev Uuid := Nat

/-- timestamptz instants of the schema, embedded as naturals. -/
abbrev Timestamp := Nat

/-- Row of `profiles` (migration 20251115160152, lines 111-124). -/
structure Profile where
  id : Uuid
  username : String
  full_name : String
  bio : String
  avatar_url : String
  cover_photo_url : String
  location : String
  website : String
  created_at : Timestamp
  updated_at : Timestamp
deriving DecidableEq, Repr

/-- Row of `posts`. -/
structure Post where
  id : Uuid
  user_id : Uuid
  content : String
  media_urls : List String
  created_at : Timestamp
  updated_at : Timestamp
  is_edited : Bool
deriving DecidableEq, Repr

/-- Row of `likes`. -/
structure Like where
  id : Uuid
  user_id : Uuid
  post_id : Uuid
  created_at : Timestamp
deriving DecidableEq, Repr

/-- Row of `comments`; `parent_id` is a nullable self reference. -/
structure Comment where
  id : Uuid
  user_id : Uuid
  post_id : Uuid
  parent_id : Option Uuid
  content : String
  created_at : Timestamp
  updated_at : Timestamp
  is_edited : Bool
deriving DecidableEq, Repr

/-- Row of `follows`. -/
structure Follow where
  id : Uuid
  follower_id : Uuid
  following_id : Uuid
  created_at : Timestamp
deriving DecidableEq, Repr

/-- Row of `conversations`. -/
structure Conversation where
  id : Uuid
  user1_id : Uuid
  user2_id : Uuid
  last_message_at : Timestamp
  created_at : Timestamp
deriving DecidableEq, Repr

/-- Row of `messages`. -/
structure Message where
  id : Uuid
  conversation_id : Uuid
  sender_id : Uuid
  content : String
  is_read : Bool
  created_at : Timestamp
deriving DecidableEq, Repr

/-- Row of `notifications`; `post_id` and `comment_id` are nullable. -/
structure Notification where
  id : Uuid
  user_id : Uuid
  actor_id : Uuid
  type : String
  post_id : Option Uuid
  comment_id : Option Uuid
  is_read : Bool
  created_at : Timestamp
deriving DecidableEq, Repr

/-- The database state: one list of rows per table of the schema. -/
structure DB where
  profiles : List Profile
  posts : List Post
  likes : List Like
  comments : List Comment
  follows : List Follow
  conversations : List Conversation
  messages : List Message
  notifications : List Notification
deriving DecidableEq, Repr

/-! ### RLS policies on `messages`

Final versions from migration 20251115163920 (semantically identical to the
20251115160152 and 20251115152416 versions up to the `(SELECT auth.uid())`
performance wrapper).  `uid` is `auth.uid()` of the authenticated caller. -/

/-- Policy "Users can view messages in their conversations" (SELECT USING):
`EXISTS (SELECT 1 FROM conversations WHERE conversations.id =
messages.conversation_id AND (user1_id = auth.uid() OR user2_id = auth.uid()))`. -/
def messages_select_policy (db : DB) (uid : Uuid) (m : Message) : Bool :=
  db.conversations.any fun c =>
    c.id = m.conversation_id && (c.user1_id = uid || c.user2_id = uid)

/-- Policy "Users can create messages in their conversations" (INSERT WITH
CHECK): `auth.uid() = sender_id AND EXISTS (... participant ...)`. -/
def messages_insert_policy (db : DB) (uid : Uuid) (m : Message) : Bool :=
  uid = m.sender_id &&
    db.conversations.any fun c =>
      c.id = m.conversation_id && (c.user1_id = uid || c.user2_id = uid)

/-- Policy "Users can update their own messages", USING clause: the caller
participates in the conversation of the existing row. -/
def messages_update_using (db : DB) (uid : Uuid) (m : Message) : Bool :=
  db.conversations.any fun c =>
    c.id = m.conversation_id && (c.user1_id = uid || c.user2_id = uid)

/-- Policy "Users can update their own messages", WITH CHECK clause: the caller
participates in the conversation of the updated row. -/
def messages_update_check (db : DB) (uid : Uuid) (m : Message) : Bool :=
  db.conversations.any fun c =>
    c.id = m.conversation_id && (c.user1_id = uid || c.user2_id = uid)

/-- An UPDATE of row `old` into row `new` is permitted when the USING clause
holds of `old` and the WITH CHECK clause holds of `new`. -/
def messageUpdateAllowed (db : DB) (uid : Uuid) (old new : Message) : Bool :=
  messages_update_using db uid old && messages_update_check db uid new

/-! ### Cascading delete of a profile

Every foreign key of the schema is declared `ON DELETE CASCADE` (migration
20251115160152).  Deleting profile `pid` removes: the profile row itself; posts
owned by `pid`; likes by `pid` and likes of deleted posts; comments by `pid`,
comments on deleted posts, and (recursively, through `comments.parent_id`)
replies to deleted comments; follows with `pid` on either side; conversations
with `pid` as either participant; messages sent by `pid` and messages of
deleted conversations; notifications whose recipient or actor is `pid` and
notifications referencing a deleted post or a deleted comment. -/

/-- A `posts` row is removed by the cascade when its owner is the deleted
profile. -/
def postCascades (pid : Uuid) (p : Post) : Bool :=
  p.user_id = pid

/-- A `comments` row is removed directly (before the `parent_id` closure) when
its author is the deleted profile or its post cascades. -/
def commentCascadesDirectly (db : DB) (pid : Uuid) (c : Comment) : Bool :=
  c.user_id = pid || db.posts.any fun p => p.id = c.post_id && postCascades pid p

/-- One step of the `comments.parent_id ON DELETE CASCADE` closure: a comment
survives the step when it has no parent or its parent row is still present. -/
def pruneOrphanReplies (cs : List Comment) : List Comment :=
  cs.filter fun c =>
    match c.parent_id with
    | none => true
    | some parent => cs.any fun c' => c'.id = parent

/-- The `comments` rows surviving the cascade: the directly surviving rows,
with the reply closure iterated to a fixed point (the table's length bounds
the depth of any parent chain). -/
def survivingComments (db : DB) (pid : Uuid) : List Comment :=
  pruneOrphanReplies^[db.comments.length]
    (db.comments.filter fun c => !commentCascadesDirectly db pid c)

/-- A `conversations` row is removed by the cascade when the deleted profile
is either participant. -/
def conversationCascades (pid : Uuid) (c : Conversation) : Bool :=
  c.user1_id = pid || c.user2_id = pid

/-- The database state after `DELETE FROM profiles WHERE id = pid`, with every
`ON DELETE CASCADE` foreign key of the schema propagated. -/
def deleteProfile (db : DB) (pid : Uuid) : DB :=
  let scs := survivingComments db pid
  { profiles := db.profiles.filter fun q => !(q.id = pid : Bool)
    posts := db.posts.filter fun p => !postCascades pid p
    likes := db.likes.filter fun l =>
      !(l.user_id = pid : Bool) &&
        !(db.posts.any fun p => p.id = l.post_id && postCascades pid p)
    comments := scs
    follows := db.follows.filter fun f =>
      !(f.follower_id = pid : Bool) && !(f.following_id = pid : Bool)
    conversations := db.conversations.filter fun c => !conversationCascades pid c
    messages := db.messages.filter fun m =>
      !(m.sender_id = pid : Bool) &&
        !(db.conversations.any fun c =>
            c.id = m.conversation_id && conversationCascades pid c)
    notifications := db.notifications.filter fun n =>
      !(n.user_id = pid : Bool) && !(n.actor_id = pid : Bool) &&
        (match n.post_id with
         | none => true
         | some po => !(db.posts.any fun p => p.id = po && postCascades pid p)) &&
        (match n.comment_id with
         | none => true
         | some co => !(db.comments.any fun c =>
             c.id = co && !(scs.any fun c' => c' = c))) }

/-! ### Trigger functions across the migration sequence

The four migrations carry timestamps 20251115152416, 20251115152525,
20251115160152 and 20251115163920; applied in timestamp order, the schema
creation file (160152) runs third and its plain `language 'plpgsql'`
redefinitions of the two trigger functions carry no `SET search_path`, and the
final file (163920) redefines both with `SECURITY DEFINER SET search_path =
public, pg_temp`.  We model the catalog entry of each function: whether it is
`SECURITY DEFINER` and its pinned `search_path` configuration, `none` meaning
the function resolves names through the caller's ambient session path. -/

/-- Catalog configuration of one plpgsql trigger function. -/
structure TriggerFn where
  security_definer : Bool
  search_path : Option String
deriving DecidableEq, Repr

/-- The catalog state of the two trigger functions; `none` when the function
does not exist. -/
structure FnCatalog where
  update_updated_at_column : Option TriggerFn
  update_conversation_last_message : Option TriggerFn
deriving DecidableEq, Repr

/-- The name-resolution context a given session search path yields for a
function: a pinned `SET search_path` overrides the session value. -/
def resolvedSearchPath (session_path : String) (fn : TriggerFn) : String :=
  match fn.search_path with
  | some p => p
  | none => session_path

/-- Migration 20251115152416 (lines 229-271): drops and recreates both
functions as `SECURITY DEFINER SET search_path = public, pg_temp`. -/
def m20251115152416 (cat : FnCatalog) : FnCatalog :=
  { cat with
    update_updated_at_column := some ⟨true, some "public, pg_temp"⟩
    update_conversation_last_message := some ⟨true, some "public, pg_temp"⟩ }

/-- Migration 20251115152525: index changes only, no function DDL. -/
def m20251115152525 (cat : FnCatalog) : FnCatalog := cat

/-- Migration 20251115160152 (lines 408-438): `CREATE OR REPLACE` of both
functions with plain `language 'plpgsql'` — no `SECURITY DEFINER`, no `SET
search_path`, so the replaced definitions resolve through the session path. -/
def m20251115160152 (cat : FnCatalog) : FnCatalog :=
  { cat with
    update_updated_at_column := some ⟨false, none⟩
    update_conversation_last_message := some ⟨false, none⟩ }

/-- Migration 20251115163920 (lines 268-286): redefines both functions as
`SECURITY DEFINER SET search_path = public, pg_temp`. -/
def m20251115163920 (cat : FnCatalog) : FnCatalog :=
  { cat with
    update_updated_at_column := some ⟨true, some "public, pg_temp"⟩
    update_conversation_last_message := some ⟨true, some "public, pg_temp"⟩ }

/-- The migration files in timestamp order, restricted to their effect on the
two trigger functions. -/
def migrationsInTimestampOrder : List (FnCatalog → FnCatalog) :=
  [m20251115152416, m20251115152525, m20251115160152, m20251115163920]

/-- The catalog before any migration: neither function exists. -/
def initialCatalog : FnCatalog := ⟨none, none⟩

/-- The catalog after applying all migrations in timestamp order. -/
def finalCatalog : FnCatalog :=
  migrationsInTimestampOrder.foldl (fun cat m => m cat) initialCatalog

/-! ### Write operations

Each insert validates the table's constraints in the order the store applies
them — NOT NULL and CHECK constraints on the formed tuple first, then the
unique indexes (primary key and declared UNIQUE constraints), then foreign
keys — and returns the new state or the first violation. -/

/-- Kind of error a rejected write surfaces. -/
inductive WriteError where
  | uniqueViolation
  | checkViolation
  | fkViolation
deriving DecidableEq, Repr

/-- CHECK `username_length`: `char_length(username) >= 3 AND
char_length(username) <= 30`. -/
def username_length_ok (u : String) : Bool :=
  3 ≤ u.length && u.length ≤ 30

/-- The character class `[a-zA-Z0-9_]` of CHECK `username_format`. -/
def isUsernameChar (c : Char) : Bool :=
  c.isAlpha || c.isDigit || c = '_'

/-- CHECK `username_format`: `username ~ '^[a-zA-Z0-9_]+$'`. -/
def username_format_ok (u : String) : Bool :=
  !u.isEmpty && u.toList.all isUsernameChar

/-- Both username CHECK constraints together. -/
def username_valid (u : String) : Bool :=
  username_length_ok u && username_format_ok u

/-- `INSERT INTO profiles`: CHECK `username_length` and `username_format`,
then the primary key on `id` and UNIQUE on `username`. -/
def insertProfile (db : DB) (p : Profile) : Except WriteError DB :=
  if !username_length_ok p.username then .error .checkViolation
  else if !username_format_ok p.username then .error .checkViolation
  else if db.profiles.any fun q => q.id = p.id then .error .uniqueViolation
  else if db.profiles.any fun q => q.username = p.username then
    .error .uniqueViolation
  else .ok { db with profiles := db.profiles ++ [p] }

/-- The username-changing `UPDATE profiles` issued by the edit-profile page:
the RLS UPDATE policy (`auth.uid() = id`) confines the write to the caller's
own row, the trigger `update_profiles_updated_at` stamps `updated_at := now`,
and the username CHECK and UNIQUE constraints are re-validated. -/
def updateUsername (db : DB) (caller : Uuid) (u : String) (now : Timestamp) :
    Except WriteError DB :=
  if !username_length_ok u then .error .checkViolation
  else if !username_format_ok u then .error .checkViolation
  else if db.profiles.any fun q => q.username = u && !(q.id = caller : Bool) then
    .error .uniqueViolation
  else .ok { db with
    profiles := db.profiles.map fun q =>
      if q.id = caller then { q with username := u, updated_at := now } else q }

/-- The key of the unique index `conversations_users_idx`:
`(LEAST(user1_id, user2_id), GREATEST(user1_id, user2_id))`. -/
def conversationPairKey (c : Conversation) : Uuid × Uuid :=
  (min c.user1_id c.user2_id, max c.user1_id c.user2_id)

/-- `INSERT INTO conversations`: CHECK `different_users`, the primary key, the
order-independent unique index `conversations_users_idx`, and the two foreign
keys into `profiles`. -/
def insertConversation (db : DB) (c : Conversation) : Except WriteError DB :=
  if c.user1_id = c.user2_id then .error .checkViolation
  else if db.conversations.any fun c' => c'.id = c.id then
    .error .uniqueViolation
  else if db.conversations.any fun c' =>
      conversationPairKey c' = conversationPairKey c then
    .error .uniqueViolation
  else if !(db.profiles.any fun q => q.id = c.user1_id) then .error .fkViolation
  else if !(db.profiles.any fun q => q.id = c.user2_id) then .error .fkViolation
  else .ok { db with conversations := db.conversations ++ [c] }

/-- The row the client's conversation insert builds (`startConversation` in
MessagesPage supplies only `user1_id` and `user2_id`): `id` comes from
`gen_random_uuid()` (a fresh id parameter here) and `last_message_at` and
`created_at` both take their schema default `now()`. -/
def newConversationRow (freshId u1 u2 : Uuid) (now : Timestamp) : Conversation :=
  ⟨freshId, u1, u2, now, now⟩

/-- CHECK `message_length`: `char_length(content) > 0 AND
char_length(content) <= 2000`. -/
def message_content_ok (s : String) : Bool :=
  0 < s.length && s.length ≤ 2000

/-- `INSERT INTO messages` together with the `AFTER INSERT` trigger
`update_conversation_timestamp`, whose function
`update_conversation_last_message` runs `UPDATE conversations SET
last_message_at = NEW.created_at WHERE id = NEW.conversation_id` in the same
transaction. -/
def insertMessage (db : DB) (m : Message) : Except WriteError DB :=
  if !message_content_ok m.content then .error .checkViolation
  else if db.messages.any fun m' => m'.id = m.id then .error .uniqueViolation
  else if !(db.conversations.any fun c => c.id = m.conversation_id) then
    .error .fkViolation
  else if !(db.profiles.any fun q => q.id = m.sender_id) then .error .fkViolation
  else .ok { db with
    messages := db.messages ++ [m]
    conversations := db.conversations.map fun c =>
      if c.id = m.conversation_id then { c with last_message_at := m.created_at }
      else c }

/-- The state a message insert leaves behind: the new state on success, the
old state untouched when the write is rejected (single-statement atomicity). -/
def applyInsertMessage (db : DB) (m : Message) : DB :=
  match insertMessage db m with
  | .ok db' => db'
  | .error _ => db

/-- `INSERT INTO likes`: the primary key and `UNIQUE(user_id, post_id)`, then
the foreign keys into `profiles` and `posts`. -/
def insertLike (db : DB) (l : Like) : Except WriteError DB :=
  if db.likes.any fun l' => l'.id = l.id then .error .uniqueViolation
  else if db.likes.any fun l' =>
      l'.user_id = l.user_id && l'.post_id = l.post_id then
    .error .uniqueViolation
  else if !(db.profiles.any fun q => q.id = l.user_id) then .error .fkViolation
  else if !(db.posts.any fun p => p.id = l.post_id) then .error .fkViolation
  else .ok { db with likes := db.likes ++ [l] }

/-- The state a like insert leaves behind. -/
def applyInsertLike (db : DB) (l : Like) : DB :=
  match insertLike db l with
  | .ok db' => db'
  | .error _ => db

/-- `INSERT INTO follows`: CHECK `no_self_follow`, the primary key and
`UNIQUE(follower_id, following_id)`, then the foreign keys into `profiles`. -/
def insertFollow (db : DB) (f : Follow) : Except WriteError DB :=
  if f.follower_id = f.following_id then .error .checkViolation
  else if db.follows.any fun f' => f'.id = f.id then .error .uniqueViolation
  else if db.follows.any fun f' =>
      f'.follower_id = f.follower_id && f'.following_id = f.following_id then
    .error .uniqueViolation
  else if !(db.profiles.any fun q => q.id = f.follower_id) then
    .error .fkViolation
  else if !(db.profiles.any fun q => q.id = f.following_id) then
    .error .fkViolation
  else .ok { db with follows := db.follows ++ [f] }

/-- The state a follow insert leaves behind. -/
def applyInsertFollow (db : DB) (f : Follow) : DB :=
  match insertFollow db f with
  | .ok db' => db'
  | .error _ => db

/-- No two `likes` rows share their `(user_id, post_id)` pair. -/
def likesPairUnique (likes : List Like) : Prop :=
  likes.Pairwise fun l1 l2 => l1.user_id ≠ l2.user_id ∨ l1.post_id ≠ l2.post_id

/-- No two `conversations` rows share their unordered participant pair. -/
def conversationsPairUnique (cs : List Conversation) : Prop :=
  cs.Pairwise fun c1 c2 => conversationPairKey c1 ≠ conversationPairKey c2

/-- Membership in an iterate of `pruneOrphanReplies` implies membership in the
starting list: each step only filters. -/
theorem mem_pruneOrphanReplies_iterate (n : Nat) (l : List Comment)
    (c : Comment) (hc : c ∈ pruneOrphanReplies^[n] l) : c ∈ l := by
  induction n generalizing l with
  | zero => simpa using hc
  | succ k ih =>
    rw [Function.iterate_succ_apply] at hc
    exact List.mem_of_mem_filter (ih (pruneOrphanReplies l) hc)

/-! ### Claim C1 -/

/-- Claim C1: for every conversation `C` and every authenticated caller who is
neither of `C`'s two participants, the `messages` RLS policies deny the caller
on every message of `C`: the SELECT policy evaluates to false, the INSERT
policy rejects any insert into `C` (even with a forged `sender_id`), and both
clauses of the UPDATE policy reject any update.  The primary-key hypothesis
`hPK` states that `C` is the only `conversations` row carrying its id. -/
theorem messages_rls_denies_nonparticipant
    (db : DB) (C : Conversation) (caller : Uuid) (m : Message)
    (hC : C ∈ db.conversations)
    (hPK : ∀ c' ∈ db.conversations, c'.id = C.id → c' = C)
    (h1 : caller ≠ C.user1_id) (h2 : caller ≠ C.user2_id)
    (hm : m.conversation_id = C.id) :
    messages_select_policy db caller m = false ∧
    messages_insert_policy db caller m = false ∧
    messages_update_using db caller m = false ∧
    messages_update_check db caller m = false := by
  have key : ∀ c ∈ db.conversations,
      (decide (c.id = m.conversation_id) &&
        (decide (c.user1_id = caller) || decide (c.user2_id = caller))) = false := by
    intro c hc
    by_cases hid : c.id = m.conversation_id
    · have hcC : c = C := hPK c hc (by rw [hid, hm])
      subst hcC
      have e1 : decide (c.user1_id = caller) = false := by
        simp [decide_eq_false_iff_not]
        exact fun h => h1 h.symm
      have e2 : decide (c.user2_id = caller) = false := by
        simp [decide_eq_false_iff_not]
        exact fun h => h2 h.symm
      simp [e1, e2]
    · simp [hid]
  have hexists : db.conversations.any
      (fun c => c.id = m.conversation_id &&
        (c.user1_id = caller || c.user2_id = caller)) = false := by
    rw [Bool.eq_false_iff]
    intro hany
    rcases List.any_eq_true.mp hany with ⟨c, hc, hp⟩
    rw [key c hc] at hp
    exact Bool.false_ne_true hp
  refine ⟨hexists, ?_, hexists, hexists⟩
  unfold messages_insert_policy
  rw [hexists]
  simp

/-- Concrete instance: conversation 10 between users 1 and 2; user 3 is denied
on a message of conversation 10 by every `messages` policy clause, even with a
forged `sender_id = 3`. -/
theorem messages_rls_denies_nonparticipant_witness :
    let C : Conversation := ⟨10, 1, 2, 0, 0⟩
    let db : DB := ⟨[], [], [], [], [], [C], [], []⟩
    let m : Message := ⟨100, 10, 3, "hi", false, 5⟩
    messages_select_policy db 3 m = false ∧
    messages_insert_policy db 3 m = false ∧
    messages_update_using db 3 m = false ∧
    messages_update_check db 3 m = false :=
  messages_rls_denies_nonparticipant
    ⟨[], [], [], [], [], [⟨10, 1, 2, 0, 0⟩], [], []⟩
    ⟨10, 1, 2, 0, 0⟩ 3 ⟨100, 10, 3, "hi", false, 5⟩
    (by decide) (by decide) (by decide) (by decide) (by decide)

/-! ### Claim C2 -/

/-- Claim C2: deleting profile `pid` removes every Post, Like, Comment, Follow,
Conversation, Message and Notification row that references `pid` through any
foreign key (owner, liker, commenter, follower or followee, conversation
participant, message sender, notification recipient or actor): no row of the
resulting state holds a reference to `pid`, and the profile row itself is
gone. -/
theorem deleteProfile_cascade_complete (db : DB) (pid : Uuid) :
    (∀ q ∈ (deleteProfile db pid).profiles, q.id ≠ pid) ∧
    (∀ p ∈ (deleteProfile db pid).posts, p.user_id ≠ pid) ∧
    (∀ l ∈ (deleteProfile db pid).likes, l.user_id ≠ pid) ∧
    (∀ c ∈ (deleteProfile db pid).comments, c.user_id ≠ pid) ∧
    (∀ f ∈ (deleteProfile db pid).follows,
      f.follower_id ≠ pid ∧ f.following_id ≠ pid) ∧
    (∀ cv ∈ (deleteProfile db pid).conversations,
      cv.user1_id ≠ pid ∧ cv.user2_id ≠ pid) ∧
    (∀ m ∈ (deleteProfile db pid).messages, m.sender_id ≠ pid) ∧
    (∀ n ∈ (deleteProfile db pid).notifications,
      n.user_id ≠ pid ∧ n.actor_id ≠ pid) := by
  refine ⟨?_, ?_, ?_, ?_, ?_, ?_, ?_, ?_⟩
  · intro q hq
    simp only [deleteProfile] at hq
    have h := (List.mem_filter.mp hq).2
    simpa using h
  · intro p hp
    simp only [deleteProfile] at hp
    have h := (List.mem_filter.mp hp).2
    simpa [postCascades] using h
  · intro l hl
    simp only [deleteProfile] at hl
    have h := (List.mem_filter.mp hl).2
    simp only [Bool.and_eq_true, Bool.not_eq_true', decide_eq_false_iff_not] at h
    exact h.1
  · intro c hc
    simp only [deleteProfile] at hc
    have hmem := mem_pruneOrphanReplies_iterate db.comments.length _ c hc
    have h := (List.mem_filter.mp hmem).2
    simp only [commentCascadesDirectly, Bool.not_eq_true', Bool.or_eq_false_iff,
      decide_eq_false_iff_not] at h
    exact h.1
  · intro f hf
    simp only [deleteProfile] at hf
    have h := (List.mem_filter.mp hf).2
    simp only [Bool.and_eq_true, Bool.not_eq_true', decide_eq_false_iff_not] at h
    exact h
  · intro cv hcv
    simp only [deleteProfile] at hcv
    have h := (List.mem_filter.mp hcv).2
    simp only [conversationCascades, Bool.not_eq_true', Bool.or_eq_false_iff,
      decide_eq_false_iff_not] at h
    exact h
  · intro m hm
    simp only [deleteProfile] at hm
    have h := (List.mem_filter.mp hm).2
    simp only [Bool.and_eq_true, Bool.not_eq_true', decide_eq_false_iff_not] at h
    exact h.1
  · intro n hn
    simp only [deleteProfile] at hn
    have h := (List.mem_filter.mp hn).2
    simp only [Bool.and_eq_true, Bool.not_eq_true', decide_eq_false_iff_not] at h
    exact h.1.1

/-- Concrete instance of the cascade: deleting profile 1 from a populated
state leaves no row referencing profile 1 in any table. -/
theorem deleteProfile_cascade_complete_witness :
    let db : DB :=
      ⟨[⟨1, "alice", "", "", "", "", "", "", 0, 0⟩,
        ⟨2, "bob", "", "", "", "", "", "", 0, 0⟩],
       [⟨20, 1, "post by alice", [], 0, 0, false⟩],
       [⟨30, 2, 20, 0⟩],
       [⟨40, 2, 20, none, "nice", 0, 0, false⟩,
        ⟨41, 1, 20, some 40, "thanks", 0, 0, false⟩],
       [⟨50, 2, 1, 0⟩],
       [⟨60, 1, 2, 0, 0⟩],
       [⟨70, 60, 1, "hello", false, 0⟩],
       [⟨80, 2, 1, "like", some 20, none, false, 0⟩]⟩
    (∀ q ∈ (deleteProfile db 1).profiles, q.id ≠ 1) ∧
    (∀ p ∈ (deleteProfile db 1).posts, p.user_id ≠ 1) ∧
    (∀ l ∈ (deleteProfile db 1).likes, l.user_id ≠ 1) ∧
    (∀ c ∈ (deleteProfile db 1).comments, c.user_id ≠ 1) ∧
    (∀ f ∈ (deleteProfile db 1).follows,
      f.follower_id ≠ 1 ∧ f.following_id ≠ 1) ∧
    (∀ cv ∈ (deleteProfile db 1).conversations,
      cv.user1_id ≠ 1 ∧ cv.user2_id ≠ 1) ∧
    (∀ m ∈ (deleteProfile db 1).messages, m.sender_id ≠ 1) ∧
    (∀ n ∈ (deleteProfile db 1).notifications,
      n.user_id ≠ 1 ∧ n.actor_id ≠ 1) :=
  deleteProfile_cascade_complete
    ⟨[⟨1, "alice", "", "", "", "", "", "", 0, 0⟩,
      ⟨2, "bob", "", "", "", "", "", "", 0, 0⟩],
     [⟨20, 1, "post by alice", [], 0, 0, false⟩],
     [⟨30, 2, 20, 0⟩],
     [⟨40, 2, 20, none, "nice", 0, 0, false⟩,
      ⟨41, 1, 20, some 40, "thanks", 0, 0, false⟩],
     [⟨50, 2, 1, 0⟩],
     [⟨60, 1, 2, 0, 0⟩],
     [⟨70, 60, 1, "hello", false, 0⟩],
     [⟨80, 2, 1, "like", some 20, none, false, 0⟩]⟩ 1

/-! ### Claim C3 -/

/-- Claim C3: in the final schema state, after all four migrations are applied
in timestamp order, both trigger functions exist and carry a statically pinned
search path (`public, pg_temp`): whatever ambient session search path a caller
arranges, both functions resolve names through the pinned value, so the
resolution context is fixed and non-overridable. -/
theorem trigger_functions_search_path_pinned :
    ∀ session_path : String,
      finalCatalog.update_updated_at_column.map
        (resolvedSearchPath session_path) = some "public, pg_temp" ∧
      finalCatalog.update_conversation_last_message.map
        (resolvedSearchPath session_path) = some "public, pg_temp" :=
  fun _ => ⟨rfl, rfl⟩

/-- Concrete instance: even under a hostile session search path, both trigger
functions resolve through `public, pg_temp` in the final catalog. -/
theorem trigger_functions_search_path_pinned_witness :
    finalCatalog.update_updated_at_column.map
      (resolvedSearchPath "evil_schema, public") = some "public, pg_temp" ∧
    finalCatalog.update_conversation_last_message.map
      (resolvedSearchPath "evil_schema, public") = some "public, pg_temp" :=
  trigger_functions_search_path_pinned "evil_schema, public"

/-! ### Claim C4 -/

/-- Claim C4: at most one conversation exists per unordered pair of distinct
profiles.  Inserting a second conversation whose `conversations_users_idx` key
`(LEAST, GREATEST)` matches an existing row fails with a uniqueness violation
regardless of the order the two ids were supplied in; a row with `user1_id =
user2_id` is rejected by CHECK `different_users`; and a successful insert
preserves pairwise uniqueness of unordered pairs. -/
theorem conversation_unique_per_unordered_pair
    (db : DB) (C row : Conversation)
    (hC : C ∈ db.conversations)
    (hCok : C.user1_id ≠ C.user2_id)
    (hpair : conversationPairKey row = conversationPairKey C) :
    insertConversation db row = .error .uniqueViolation ∧
    (∀ bad : Conversation, bad.user1_id = bad.user2_id →
      insertConversation db bad = .error .checkViolation) ∧
    (∀ (db2 db3 : DB) (r : Conversation),
      conversationsPairUnique db2.conversations →
      insertConversation db2 r = .ok db3 →
      conversationsPairUnique db3.conversations) := by
  have hCminmax : min C.user1_id C.user2_id ≠ max C.user1_id C.user2_id := by
    rcases Nat.le_total C.user1_id C.user2_id with h | h
    · rw [Nat.min_eq_left h, Nat.max_eq_right h]; exact hCok
    · rw [Nat.min_eq_right h, Nat.max_eq_left h]
      exact fun e => hCok (e ▸ rfl)
  have hne : row.user1_id ≠ row.user2_id := by
    intro h
    apply hCminmax
    have h1 := congrArg Prod.fst hpair
    have h2 := congrArg Prod.snd hpair
    simp only [conversationPairKey, h] at h1 h2
    rw [← h1, ← h2]
    simp
  refine ⟨?_, ?_, ?_⟩
  · by_cases hpk : (db.conversations.any fun c' => c'.id = row.id) = true
    · simp [insertConversation, hne, hpk]
    · have hany : (db.conversations.any fun c' =>
          conversationPairKey c' = conversationPairKey row) = true :=
        List.any_eq_true.mpr ⟨C, hC, decide_eq_true hpair.symm⟩
      simp [insertConversation, hne, hpk, hany]
  · intro bad hbad
    simp [insertConversation, hbad]
  · intro db2 db3 r hinv hok
    unfold insertConversation at hok
    split at hok
    · exact absurd hok (by simp)
    split at hok
    · exact absurd hok (by simp)
    split at hok
    · exact absurd hok (by simp)
    rename_i hidx
    split at hok
    · exact absurd hok (by simp)
    split at hok
    · exact absurd hok (by simp)
    rw [Except.ok.injEq] at hok
    subst hok
    show (db2.conversations ++ [r]).Pairwise _
    rw [List.pairwise_append]
    refine ⟨hinv, List.pairwise_singleton _ _, ?_⟩
    intro a ha b hb
    rw [List.mem_singleton] at hb
    subst hb
    intro hkey
    exact hidx (List.any_eq_true.mpr ⟨a, ha, decide_eq_true hkey⟩)

/-- Concrete instance: with a conversation between users 1 and 2 on record,
inserting the pair again in swapped order fails with a uniqueness violation,
a self-pair row is rejected, and successful inserts preserve unordered-pair
uniqueness. -/
theorem conversation_unique_per_unordered_pair_witness :
    let db : DB :=
      ⟨[⟨1, "alice", "", "", "", "", "", "", 0, 0⟩,
        ⟨2, "bob", "", "", "", "", "", "", 0, 0⟩],
       [], [], [], [], [⟨60, 1, 2, 0, 0⟩], [], []⟩
    insertConversation db ⟨61, 2, 1, 7, 7⟩ =
      .error .uniqueViolation ∧
    (∀ bad : Conversation, bad.user1_id = bad.user2_id →
      insertConversation db bad = .error .checkViolation) ∧
    (∀ (db2 db3 : DB) (r : Conversation),
      conversationsPairUnique db2.conversations →
      insertConversation db2 r = .ok db3 →
      conversationsPairUnique db3.conversations) :=
  conversation_unique_per_unordered_pair
    ⟨[⟨1, "alice", "", "", "", "", "", "", 0, 0⟩,
      ⟨2, "bob", "", "", "", "", "", "", 0, 0⟩],
     [], [], [], [], [⟨60, 1, 2, 0, 0⟩], [], []⟩
    ⟨60, 1, 2, 0, 0⟩ ⟨61, 2, 1, 7, 7⟩
    (by decide) (by decide) (by decide)

/-! ### Claim C5 -/

/-- Claim C5: a successful message insert stores the message and, through the
`AFTER INSERT` trigger in the same statement, sets the parent conversation's
`last_message_at` to the message's `created_at`: every conversation row
carrying the message's `conversation_id` ends with `last_message_at =
created_at(m)`; and a rejected insert leaves the state unchanged. -/
theorem message_insert_sets_last_message_at
    (db db' : DB) (m : Message)
    (hok : insertMessage db m = .ok db') :
    m ∈ db'.messages ∧
    (∀ c ∈ db'.conversations,
      c.id = m.conversation_id → c.last_message_at = m.created_at) ∧
    (∀ (db2 : DB) (m2 : Message) (e : WriteError),
      insertMessage db2 m2 = .error e → applyInsertMessage db2 m2 = db2) := by
  unfold insertMessage at hok
  split at hok
  · exact absurd hok (by simp)
  split at hok
  · exact absurd hok (by simp)
  split at hok
  · exact absurd hok (by simp)
  split at hok
  · exact absurd hok (by simp)
  rw [Except.ok.injEq] at hok
  subst hok
  refine ⟨List.mem_append_right _ (List.mem_singleton.mpr rfl), ?_, ?_⟩
  · intro c hc hcid
    rcases List.mem_map.mp hc with ⟨c0, hc0, rfl⟩
    by_cases h0 : c0.id = m.conversation_id
    · simp [h0]
    · rw [if_neg h0] at hcid ⊢
      exact absurd hcid h0
  · intro db2 m2 e he
    unfold applyInsertMessage
    rw [he]

/-- Concrete instance: inserting message 70 (created at instant 5) into
conversation 60 stores it and leaves conversation 60 with `last_message_at =
5`; rejected message inserts change nothing. -/
theorem message_insert_sets_last_message_at_witness :
    let m : Message := ⟨70, 60, 1, "hi", false, 5⟩
    let db' : DB :=
      ⟨[⟨1, "alice", "", "", "", "", "", "", 0, 0⟩,
        ⟨2, "bob", "", "", "", "", "", "", 0, 0⟩],
       [], [], [], [], [⟨60, 1, 2, 5, 0⟩], [m], []⟩
    m ∈ db'.messages ∧
    (∀ c ∈ db'.conversations,
      c.id = m.conversation_id → c.last_message_at = m.created_at) ∧
    (∀ (db2 : DB) (m2 : Message) (e : WriteError),
      insertMessage db2 m2 = .error e → applyInsertMessage db2 m2 = db2) :=
  message_insert_sets_last_message_at
    ⟨[⟨1, "alice", "", "", "", "", "", "", 0, 0⟩,
      ⟨2, "bob", "", "", "", "", "", "", 0, 0⟩],
     [], [], [], [], [⟨60, 1, 2, 0, 0⟩], [], []⟩
    ⟨[⟨1, "alice", "", "", "", "", "", "", 0, 0⟩,
      ⟨2, "bob", "", "", "", "", "", "", 0, 0⟩],
     [], [], [], [], [⟨60, 1, 2, 5, 0⟩], [⟨70, 60, 1, "hi", false, 5⟩], []⟩
    ⟨70, 60, 1, "hi", false, 5⟩ rfl

/-! ### Claim C6 -/

/-- Claim C6: at most one `likes` row exists per `(user_id, post_id)` pair.
With a like `L` on record, inserting another like with the same pair fails
with a uniqueness violation and leaves the state unchanged; and any
successful like insert preserves pairwise uniqueness of `(user_id, post_id)`
pairs, so the invariant holds in every reachable state. -/
theorem like_unique_per_user_post
    (db : DB) (L l : Like)
    (hL : L ∈ db.likes)
    (hu : l.user_id = L.user_id) (hp : l.post_id = L.post_id) :
    insertLike db l = .error .uniqueViolation ∧
    applyInsertLike db l = db ∧
    (∀ (db2 db3 : DB) (l2 : Like),
      likesPairUnique db2.likes →
      insertLike db2 l2 = .ok db3 →
      likesPairUnique db3.likes) := by
  have herr : insertLike db l = .error .uniqueViolation := by
    by_cases hpk : (db.likes.any fun l' => l'.id = l.id) = true
    · simp [insertLike, hpk]
    · have hany : (db.likes.any fun l' =>
          l'.user_id = l.user_id && l'.post_id = l.post_id) = true :=
        List.any_eq_true.mpr
          ⟨L, hL, by rw [hu, hp]; simp⟩
      simp [insertLike, hpk, hany]
  refine ⟨herr, ?_, ?_⟩
  · unfold applyInsertLike
    rw [herr]
  · intro db2 db3 l2 hinv hok
    unfold insertLike at hok
    split at hok
    · exact absurd hok (by simp)
    split at hok
    · exact absurd hok (by simp)
    rename_i hdup
    split at hok
    · exact absurd hok (by simp)
    split at hok
    · exact absurd hok (by simp)
    rw [Except.ok.injEq] at hok
    subst hok
    show (db2.likes ++ [l2]).Pairwise _
    rw [List.pairwise_append]
    refine ⟨hinv, List.pairwise_singleton _ _, ?_⟩
    intro a ha b hb
    rw [List.mem_singleton] at hb
    subst hb
    by_cases hau : a.user_id = b.user_id
    · right
      intro hap
      exact hdup (List.any_eq_true.mpr ⟨a, ha, by rw [hau, hap]; simp⟩)
    · exact Or.inl hau

/-- Concrete instance: user 2 already likes post 20; a second like row for the
same pair fails with a uniqueness violation and the state is unchanged. -/
theorem like_unique_per_user_post_witness :
    let db : DB :=
      ⟨[⟨1, "alice", "", "", "", "", "", "", 0, 0⟩,
        ⟨2, "bob", "", "", "", "", "", "", 0, 0⟩],
       [⟨20, 1, "post", [], 0, 0, false⟩],
       [⟨30, 2, 20, 0⟩], [], [], [], [], []⟩
    insertLike db ⟨31, 2, 20, 9⟩ = .error .uniqueViolation ∧
    applyInsertLike db ⟨31, 2, 20, 9⟩ = db ∧
    (∀ (db2 db3 : DB) (l2 : Like),
      likesPairUnique db2.likes →
      insertLike db2 l2 = .ok db3 →
      likesPairUnique db3.likes) :=
  like_unique_per_user_post
    ⟨[⟨1, "alice", "", "", "", "", "", "", 0, 0⟩,
      ⟨2, "bob", "", "", "", "", "", "", 0, 0⟩],
     [⟨20, 1, "post", [], 0, 0, false⟩],
     [⟨30, 2, 20, 0⟩], [], [], [], [], []⟩
    ⟨30, 2, 20, 0⟩ ⟨31, 2, 20, 9⟩ (by decide) (by decide) (by decide)

/-! ### Claim C7 -/

/-- Claim C7: a follow insert with `follower_id = following_id` is rejected by
CHECK `no_self_follow`, and a follow insert whose ordered pair `(follower_id,
following_id)` is already on record fails with a uniqueness violation; in both
failure cases the state is unchanged. -/
theorem follow_rejects_self_and_duplicate
    (db : DB) (F f : Follow)
    (hF : F ∈ db.follows)
    (hFok : F.follower_id ≠ F.following_id)
    (h1 : f.follower_id = F.follower_id)
    (h2 : f.following_id = F.following_id) :
    insertFollow db f = .error .uniqueViolation ∧
    applyInsertFollow db f = db ∧
    (∀ g : Follow, g.follower_id = g.following_id →
      insertFollow db g = .error .checkViolation ∧
      applyInsertFollow db g = db) := by
  have hself : f.follower_id ≠ f.following_id := by
    rw [h1, h2]; exact hFok
  have herr : insertFollow db f = .error .uniqueViolation := by
    by_cases hpk : (db.follows.any fun f' => f'.id = f.id) = true
    · simp [insertFollow, hself, hpk]
    · have hany : (db.follows.any fun f' =>
          f'.follower_id = f.follower_id &&
            f'.following_id = f.following_id) = true :=
        List.any_eq_true.mpr ⟨F, hF, by rw [h1, h2]; simp⟩
      simp [insertFollow, hself, hpk, hany]
  refine ⟨herr, ?_, ?_⟩
  · unfold applyInsertFollow
    rw [herr]
  · intro g hg
    have herr2 : insertFollow db g = .error .checkViolation := by
      simp [insertFollow, hg]
    refine ⟨herr2, ?_⟩
    unfold applyInsertFollow
    rw [herr2]

/-- Concrete instance: with follow (2 → 1) on record, a duplicate (2 → 1)
fails with a uniqueness violation and any self-follow row is rejected; the
state is unchanged in both cases. -/
theorem follow_rejects_self_and_duplicate_witness :
    let db : DB :=
      ⟨[⟨1, "alice", "", "", "", "", "", "", 0, 0⟩,
        ⟨2, "bob", "", "", "", "", "", "", 0, 0⟩],
       [], [], [], [⟨50, 2, 1, 0⟩], [], [], []⟩
    insertFollow db ⟨51, 2, 1, 9⟩ = .error .uniqueViolation ∧
    applyInsertFollow db ⟨51, 2, 1, 9⟩ = db ∧
    (∀ g : Follow, g.follower_id = g.following_id →
      insertFollow db g = .error .checkViolation ∧
      applyInsertFollow db g = db) :=
  follow_rejects_self_and_duplicate
    ⟨[⟨1, "alice", "", "", "", "", "", "", 0, 0⟩,
      ⟨2, "bob", "", "", "", "", "", "", 0, 0⟩],
     [], [], [], [⟨50, 2, 1, 0⟩], [], [], []⟩
    ⟨50, 2, 1, 0⟩ ⟨51, 2, 1, 9⟩
    (by decide) (by decide) (by decide) (by decide)

/-! ### Claim C8 -/

/-- Claim C8: the username CHECK constraints are enforced at write time: a
profile insert with username `"ab"` (2 characters) is rejected, one with
`"abc"` (3 characters, fresh id and username) is accepted, one whose username
contains a space is rejected, and both the insert path and the
username-updating write preserve the invariant that every stored username has
length between 3 and 30 and consists only of letters, digits and
underscores. -/
theorem username_constraints_enforced (db : DB) :
    (∀ p : Profile, p.username = "ab" →
      insertProfile db p = .error .checkViolation) ∧
    (∀ p : Profile, p.username = "abc" →
      (∀ q ∈ db.profiles, q.id ≠ p.id ∧ q.username ≠ p.username) →
      insertProfile db p = .ok { db with profiles := db.profiles ++ [p] }) ∧
    (∀ p : Profile, ' ' ∈ p.username.toList →
      insertProfile db p = .error .checkViolation) ∧
    (∀ (db2 db3 : DB) (p : Profile),
      (∀ q ∈ db2.profiles, username_valid q.username = true) →
      insertProfile db2 p = .ok db3 →
      ∀ q ∈ db3.profiles, username_valid q.username = true) ∧
    (∀ (db2 db3 : DB) (caller : Uuid) (u : String) (now : Timestamp),
      (∀ q ∈ db2.profiles, username_valid q.username = true) →
      updateUsername db2 caller u now = .ok db3 →
      ∀ q ∈ db3.profiles, username_valid q.username = true) := by
  refine ⟨?_, ?_, ?_, ?_, ?_⟩
  · intro p hp
    have hlen : username_length_ok p.username = false := by rw [hp]; decide
    simp [insertProfile, hlen]
  · intro p hp hfresh
    have hlen : username_length_ok p.username = true := by rw [hp]; decide
    have hfmt : username_format_ok p.username = true := by rw [hp]; decide
    have hid : (db.profiles.any fun q => q.id = p.id) = false := by
      rw [Bool.eq_false_iff]
      intro h
      rcases List.any_eq_true.mp h with ⟨q, hq, hqq⟩
      exact (hfresh q hq).1 (of_decide_eq_true hqq)
    have hun : (db.profiles.any fun q => q.username = p.username) = false := by
      rw [Bool.eq_false_iff]
      intro h
      rcases List.any_eq_true.mp h with ⟨q, hq, hqq⟩
      exact (hfresh q hq).2 (of_decide_eq_true hqq)
    simp [insertProfile, hlen, hfmt, hid, hun]
  · intro p hp
    by_cases hlen : username_length_ok p.username = true
    · have hfmt : username_format_ok p.username = false := by
        rw [Bool.eq_false_iff]
        intro hful
        rw [username_format_ok, Bool.and_eq_true] at hful
        exact absurd (List.all_eq_true.mp hful.2 ' ' hp) (by decide)
      simp [insertProfile, hlen, hfmt]
    · have hlen' : username_length_ok p.username = false :=
        Bool.eq_false_iff.mpr hlen
      simp [insertProfile, hlen']
  · intro db2 db3 p hprev hok
    unfold insertProfile at hok
    split at hok
    · exact absurd hok (by simp)
    rename_i hlen
    split at hok
    · exact absurd hok (by simp)
    rename_i hfmt
    split at hok
    · exact absurd hok (by simp)
    split at hok
    · exact absurd hok (by simp)
    rw [Except.ok.injEq] at hok
    subst hok
    intro q hq
    rcases List.mem_append.mp hq with hq | hq
    · exact hprev q hq
    · rw [List.mem_singleton] at hq
      subst hq
      rw [Bool.not_eq_true', Bool.not_eq_false] at hlen hfmt
      unfold username_valid
      rw [hlen, hfmt]
      rfl
  · intro db2 db3 caller u now hprev hok
    unfold updateUsername at hok
    split at hok
    · exact absurd hok (by simp)
    rename_i hlen
    split at hok
    · exact absurd hok (by simp)
    rename_i hfmt
    split at hok
    · exact absurd hok (by simp)
    rw [Except.ok.injEq] at hok
    subst hok
    intro q hq
    rcases List.mem_map.mp hq with ⟨q0, hq0, rfl⟩
    by_cases h0 : q0.id = caller
    · rw [if_pos h0]
      rw [Bool.not_eq_true', Bool.not_eq_false] at hlen hfmt
      unfold username_valid
      rw [hlen, hfmt]
      rfl
    · rw [if_neg h0]
      exact hprev q0 hq0

/-- Concrete instances of the username rules: on a state holding only user 1
named `alice`, an insert with username `"ab"` is rejected, an insert with the
fresh username `"abc"` is accepted, and an insert with `"has space"` is
rejected. -/
theorem username_constraints_enforced_witness :
    let db : DB :=
      ⟨[⟨1, "alice", "", "", "", "", "", "", 0, 0⟩], [], [], [], [], [], [], []⟩
    insertProfile db ⟨2, "ab", "", "", "", "", "", "", 0, 0⟩ =
      .error .checkViolation ∧
    insertProfile db ⟨2, "abc", "", "", "", "", "", "", 0, 0⟩ =
      .ok { db with
        profiles := db.profiles ++ [⟨2, "abc", "", "", "", "", "", "", 0, 0⟩] } ∧
    insertProfile db ⟨2, "has space", "", "", "", "", "", "", 0, 0⟩ =
      .error .checkViolation :=
  ⟨(username_constraints_enforced
      ⟨[⟨1, "alice", "", "", "", "", "", "", 0, 0⟩],
       [], [], [], [], [], [], []⟩).1
    ⟨2, "ab", "", "", "", "", "", "", 0, 0⟩ rfl,
   (username_constraints_enforced
      ⟨[⟨1, "alice", "", "", "", "", "", "", 0, 0⟩],
       [], [], [], [], [], [], []⟩).2.1
    ⟨2, "abc", "", "", "", "", "", "", 0, 0⟩ rfl (by decide),
   (username_constraints_enforced
      ⟨[⟨1, "alice", "", "", "", "", "", "", 0, 0⟩],
       [], [], [], [], [], [], []⟩).2.2.1
    ⟨2, "has space", "", "", "", "", "", "", 0, 0⟩ (by decide)⟩

/-! ### Claim C9 -/

/-- Claim C9: the `messages` UPDATE policy only requires the caller to
participate in the row's conversation, in both its USING and WITH CHECK
clauses; it never inspects `sender_id` and does not restrict which columns
change.  A participant `p` of conversation `C` may therefore rewrite any
message of `C` — sender, content, read flag, id and timestamp included — into
any new row still belonging to `C`, which is what the client's
`markMessagesAsRead` relies on when it sets `is_read` on rows whose sender is
the other participant. -/
theorem messages_update_policy_participant_any_field
    (db : DB) (C : Conversation) (p : Uuid) (m : Message)
    (hC : C ∈ db.conversations)
    (hp : p = C.user1_id ∨ p = C.user2_id)
    (hm : m.conversation_id = C.id) :
    ∀ new : Message, new.conversation_id = m.conversation_id →
      messageUpdateAllowed db p m new = true := by
  intro new hnew
  have hex : ∀ mm : Message, mm.conversation_id = C.id →
      (db.conversations.any fun c =>
        c.id = mm.conversation_id && (c.user1_id = p || c.user2_id = p)) = true := by
    intro mm hmm
    refine List.any_eq_true.mpr ⟨C, hC, ?_⟩
    rw [hmm]
    rcases hp with h | h
    · simp [h.symm]
    · simp [h.symm]
  unfold messageUpdateAllowed messages_update_using messages_update_check
  rw [hex m hm, hex new (by rw [hnew, hm])]
  rfl

/-- Concrete instance: user 2, a participant of conversation 60 but not the
sender of message 70, is permitted by the UPDATE policy to rewrite that
message — flipping `is_read` and even replacing the content authored by
user 1. -/
theorem messages_update_policy_participant_any_field_witness :
    let db : DB :=
      ⟨[], [], [], [], [], [⟨60, 1, 2, 0, 0⟩], [⟨70, 60, 1, "hi", false, 5⟩], []⟩
    messageUpdateAllowed db 2 ⟨70, 60, 1, "hi", false, 5⟩
      ⟨70, 60, 1, "rewritten", true, 5⟩ = true :=
  messages_update_policy_participant_any_field
    ⟨[], [], [], [], [], [⟨60, 1, 2, 0, 0⟩], [⟨70, 60, 1, "hi", false, 5⟩], []⟩
    ⟨60, 1, 2, 0, 0⟩ 2 ⟨70, 60, 1, "hi", false, 5⟩
    (by decide) (by decide) (by decide)
    ⟨70, 60, 1, "rewritten", true, 5⟩ (by decide)

/-! ### Claim C10 -/

/-- Claim C10: a conversation created the way the client creates it — only the
two participant ids supplied — carries `last_message_at` from the moment of
insertion: both `last_message_at` and `created_at` take the same default, the
insertion instant, so a conversation with no messages yet already holds a
last-activity instant equal to its creation time, and the successfully
inserted row is stored with those values. -/
theorem conversation_default_last_message_at
    (db db' : DB) (freshId u1 u2 : Uuid) (t : Timestamp)
    (hok : insertConversation db (newConversationRow freshId u1 u2 t) = .ok db') :
    (newConversationRow freshId u1 u2 t).last_message_at = t ∧
    (newConversationRow freshId u1 u2 t).created_at =
      (newConversationRow freshId u1 u2 t).last_message_at ∧
    newConversationRow freshId u1 u2 t ∈ db'.conversations := by
  refine ⟨rfl, rfl, ?_⟩
  unfold insertConversation at hok
  split at hok
  · exact absurd hok (by simp)
  split at hok
  · exact absurd hok (by simp)
  split at hok
  · exact absurd hok (by simp)
  split at hok
  · exact absurd hok (by simp)
  split at hok
  · exact absurd hok (by simp)
  rw [Except.ok.injEq] at hok
  subst hok
  exact List.mem_append_right _ (List.mem_singleton.mpr rfl)

/-- Concrete instance: the client-style insert of a conversation between
users 1 and 2 at instant 42 stores a row whose `last_message_at` and
`created_at` both equal 42. -/
theorem conversation_default_last_message_at_witness :
    (newConversationRow 60 1 2 42).last_message_at = 42 ∧
    (newConversationRow 60 1 2 42).created_at =
      (newConversationRow 60 1 2 42).last_message_at ∧
    newConversationRow 60 1 2 42 ∈
      (⟨[⟨1, "alice", "", "", "", "", "", "", 0, 0⟩,
         ⟨2, "bob", "", "", "", "", "", "", 0, 0⟩],
        [], [], [], [], [⟨60, 1, 2, 42, 42⟩], [], []⟩ : DB).conversations :=
  conversation_default_last_message_at
    ⟨[⟨1, "alice", "", "", "", "", "", "", 0, 0⟩,
      ⟨2, "bob", "", "", "", "", "", "", 0, 0⟩],
     [], [], [], [], [], [], []⟩
    ⟨[⟨1, "alice", "", "", "", "", "", "", 0, 0⟩,
      ⟨2, "bob", "", "", "", "", "", "", 0, 0⟩],
     [], [], [], [], [⟨60, 1, 2, 42, 42⟩], [], []⟩
    60 1 2 42 rfl

end SocialApp
